import Mathlib

/-!
Verification of the texture-sampling and color-transform core of the
`internal/graphicsdriver/opengl` package: a shallow embedding of the
fragment-shader arithmetic of `shader.go` (over `ℚ`, the idealized
real-number semantics of the `highp float` computations) and of the
reserved-keyword scanner `checkGLSL` (over `List Char`).
-/

/-- A 2-component vector, embedding GLSL `vec2` over `ℚ`. -/
structure Vec2 where
  x : ℚ
  y : ℚ
deriving DecidableEq

/-- A 4-component color, embedding GLSL `vec4` over `ℚ` (premultiplied RGBA). -/
structure Vec4 where
  r : ℚ
  g : ℚ
  b : ℚ
  a : ℚ
deriving DecidableEq

/-- The all-zero color `vec4(0, 0, 0, 0)`. -/
def Vec4.zero : Vec4 := ⟨0, 0, 0, 0⟩

/-- Componentwise sum of two colors. -/
def Vec4.add (u v : Vec4) : Vec4 := ⟨u.r + v.r, u.g + v.g, u.b + v.b, u.a + v.a⟩

/-- Scalar multiple of a color. -/
def Vec4.scale (k : ℚ) (v : Vec4) : Vec4 := ⟨k * v.r, k * v.g, k * v.b, k * v.a⟩

/-- Componentwise (Hadamard) product, embedding GLSL `color *= varying_color_scale`. -/
def Vec4.hadamard (u v : Vec4) : Vec4 := ⟨u.r * v.r, u.g * v.g, u.b * v.b, u.a * v.a⟩

/-- The sprite sub-rectangle `varying_tex_region`: its components `[0]`, `[1]`,
`[2]`, `[3]` of the GLSL `vec4` are named `xMin`, `yMin`, `xMax`, `yMax`. -/
structure TexRegion where
  xMin : ℚ
  yMin : ℚ
  xMax : ℚ
  yMax : ℚ
deriving DecidableEq

/-- A column-major 4x4 matrix, embedding GLSL `mat4` (`color_matrix_body`). -/
structure Mat4 where
  c0 : Vec4
  c1 : Vec4
  c2 : Vec4
  c3 : Vec4
deriving DecidableEq

/-- GLSL `mat4 * vec4`: the linear combination of the columns by the components. -/
def Mat4.mulVec (m : Mat4) (v : Vec4) : Vec4 :=
  ⟨m.c0.r * v.r + m.c1.r * v.g + m.c2.r * v.b + m.c3.r * v.a,
   m.c0.g * v.r + m.c1.g * v.g + m.c2.g * v.b + m.c3.g * v.a,
   m.c0.b * v.r + m.c1.b * v.g + m.c2.b * v.b + m.c3.b * v.a,
   m.c0.a * v.r + m.c1.a * v.g + m.c2.a * v.b + m.c3.a * v.a⟩

/-- The identity 4x4 matrix (used as a concrete instance in witnesses). -/
def mat4Identity : Mat4 := ⟨⟨1, 0, 0, 0⟩, ⟨0, 1, 0, 0⟩, ⟨0, 0, 1, 0⟩, ⟨0, 0, 0, 1⟩⟩

/-- GLSL `fract(x) = x - floor(x)`. -/
def fract (x : ℚ) : ℚ := x - ⌊x⌋

/-- GLSL `mix(x, y, t) = x*(1-t) + y*t` on scalars. -/
def mixQ (x y t : ℚ) : ℚ := x * (1 - t) + y * t

/-- GLSL `mix` applied componentwise to colors. -/
def Vec4.mix (u v : Vec4) (t : ℚ) : Vec4 :=
  ⟨mixQ u.r v.r t, mixQ u.g v.g t, mixQ u.b v.b t, mixQ u.a v.a t⟩

/-- GLSL `clamp(x, lo, hi) = min(max(x, lo), hi)` on scalars. -/
def clampQ (x lo hi : ℚ) : ℚ := min (max x lo) hi

/-- GLSL `clamp(color, 0.0, 1.0)` applied componentwise. -/
def Vec4.clamp01 (v : Vec4) : Vec4 :=
  ⟨clampQ v.r 0 1, clampQ v.g 0 1, clampQ v.b 0 1, clampQ v.a 0 1⟩

/-- `texel_size = 1.0 / source_size` (componentwise reciprocal). -/
def texelSize (source_size : Vec2) : Vec2 := ⟨1 / source_size.x, 1 / source_size.y⟩

/-- The integer constant substituted for the `{{.FilterNearest}}` placeholder.
Modelled from the spec: the enumeration values come from the `graphics`
package, which is not among the sources; the enumeration {Nearest, Linear,
Screen} is embedded as the distinct integers 0, 1, 2. -/
def FILTER_NEAREST : ℤ := 0

/-- The integer constant substituted for the `{{.FilterLinear}}` placeholder. -/
def FILTER_LINEAR : ℤ := 1

/-- The integer constant substituted for the `{{.FilterScreen}}` placeholder. -/
def FILTER_SCREEN : ℤ := 2

/-- The integer constant substituted for the `{{.AddressClampToZero}}`
placeholder. Modelled from the spec: the enumeration {ClampToZero, Repeat}
is embedded as the distinct integers 0, 1. -/
def ADDRESS_CLAMP_TO_ZERO : ℤ := 0

/-- The integer constant substituted for the `{{.AddressRepeat}}` placeholder. -/
def ADDRESS_REPEAT : ℤ := 1

/-- The GLSL helper `adjustTexel(p0, p1)`: when `p1 - p0` spans exactly a
whole number of texels on an axis, subtract `texel_size/512` from that axis
of `p1` (the anti-jaggy epsilon). `source_size` is the uniform it reads. -/
def adjustTexel (source_size : Vec2) (p0 p1 : Vec2) : Vec2 :=
  let texel_size := texelSize source_size
  ⟨if fract ((p1.x - p0.x) * source_size.x) = 0 then p1.x - texel_size.x / 512 else p1.x,
   if fract ((p1.y - p0.y) * source_size.y) = 0 then p1.y - texel_size.y / 512 else p1.y⟩

/-- The GLSL helper `floorMod(x, y)`:
`if (x < 0.0) return y - (-x - y * floor(-x/y)); return x - y * floor(x/y)`. -/
def floorMod (x y : ℚ) : ℚ :=
  if x < 0 then y - (-x - y * ⌊-x / y⌋) else x - y * ⌊x / y⌋

/-- The GLSL helper `adjustTexelByAddress(p, tex_region, address)`: identity
for ClampToZero, per-axis `floorMod` remap into the region for Repeat, and
`vec2(0.0)` for any other address value (the `// Not reached.` branch). -/
def adjustTexelByAddress (p : Vec2) (tex_region : TexRegion) (address : ℤ) : Vec2 :=
  if address = ADDRESS_CLAMP_TO_ZERO then p
  else if address = ADDRESS_REPEAT then
    let o : Vec2 := ⟨tex_region.xMin, tex_region.yMin⟩
    let size : Vec2 := ⟨tex_region.xMax - tex_region.xMin, tex_region.yMax - tex_region.yMin⟩
    ⟨floorMod (p.x - o.x) size.x + o.x, floorMod (p.y - o.y) size.y + o.y⟩
  else ⟨0, 0⟩

/-- The filter stage of the fragment `main`: the three `filter_type` branches
computing the blended color `color` before the color transform, and `none`
for the final `discard` branch. `tex` abstracts the `texture2D` lookups
performed by the external rasterizer. -/
def filterColor (tex : Vec2 → Vec4) (filter_type address : ℤ) (source_size : Vec2)
    (tex_region : TexRegion) (scale : ℚ) (pos : Vec2) : Option Vec4 :=
  let texel_size := texelSize source_size
  if filter_type = FILTER_NEAREST then
    let pos := adjustTexelByAddress pos tex_region address
    let color := tex pos
    some (if pos.x < tex_region.xMin ∨ pos.y < tex_region.yMin ∨
            tex_region.xMax - texel_size.x / 512 ≤ pos.x ∨
            tex_region.yMax - texel_size.y / 512 ≤ pos.y
          then Vec4.zero else color)
  else if filter_type = FILTER_LINEAR then
    let p0 : Vec2 := ⟨pos.x - texel_size.x / 2, pos.y - texel_size.y / 2⟩
    let p1 : Vec2 := ⟨pos.x + texel_size.x / 2, pos.y + texel_size.y / 2⟩
    let p1 := adjustTexel source_size p0 p1
    let p0 := adjustTexelByAddress p0 tex_region address
    let p1 := adjustTexelByAddress p1 tex_region address
    let c0 := tex p0
    let c1 := tex ⟨p1.x, p0.y⟩
    let c2 := tex ⟨p0.x, p1.y⟩
    let c3 := tex p1
    let c0 := if p0.x < tex_region.xMin then Vec4.zero else c0
    let c2 := if p0.x < tex_region.xMin then Vec4.zero else c2
    let c0 := if p0.y < tex_region.yMin then Vec4.zero else c0
    let c1 := if p0.y < tex_region.yMin then Vec4.zero else c1
    let c1 := if tex_region.xMax - texel_size.x / 512 ≤ p1.x then Vec4.zero else c1
    let c3 := if tex_region.xMax - texel_size.x / 512 ≤ p1.x then Vec4.zero else c3
    let c2 := if tex_region.yMax - texel_size.y / 512 ≤ p1.y then Vec4.zero else c2
    let c3 := if tex_region.yMax - texel_size.y / 512 ≤ p1.y then Vec4.zero else c3
    let rate : Vec2 := ⟨fract (p0.x * source_size.x), fract (p0.y * source_size.y)⟩
    some ((Vec4.mix c0 c1 rate.x).mix (Vec4.mix c2 c3 rate.x) rate.y)
  else if filter_type = FILTER_SCREEN then
    let p0 : Vec2 := ⟨pos.x - texel_size.x / 2 / scale, pos.y - texel_size.y / 2 / scale⟩
    let p1 : Vec2 := ⟨pos.x + texel_size.x / 2 / scale, pos.y + texel_size.y / 2 / scale⟩
    let p1 := adjustTexel source_size p0 p1
    let c0 := tex p0
    let c1 := tex ⟨p1.x, p0.y⟩
    let c2 := tex ⟨p0.x, p1.y⟩
    let c3 := tex p1
    let rateCenter : Vec2 := ⟨1 - texel_size.x / 2 / scale, 1 - texel_size.y / 2 / scale⟩
    let rate : Vec2 :=
      ⟨clampQ ((fract (p0.x * source_size.x) - rateCenter.x) * scale + rateCenter.x) 0 1,
       clampQ ((fract (p0.y * source_size.y) - rateCenter.y) * scale + rateCenter.y) 0 1⟩
    some ((Vec4.mix c0 c1 rate.x).mix (Vec4.mix c2 c3 rate.x) rate.y)
  else none

/-- The color-transform tail of the fragment `main`: un-premultiply under the
`0.0 < color.a` guard, apply `color_matrix_body * color +
color_matrix_translation`, multiply by `varying_color_scale`, clamp to
`[0,1]`, and re-premultiply the RGB channels by the clamped alpha. -/
def colorTransform (color_matrix_body : Mat4) (color_matrix_translation : Vec4)
    (varying_color_scale : Vec4) (color : Vec4) : Vec4 :=
  let color :=
    if 0 < color.a then ⟨color.r / color.a, color.g / color.a, color.b / color.a, color.a⟩
    else color
  let color := (color_matrix_body.mulVec color).add color_matrix_translation
  let color := color.hadamard varying_color_scale
  let color := color.clamp01
  ⟨color.r * color.a, color.g * color.a, color.b * color.a, color.a⟩

/-- The whole fragment `main` as a per-pixel function: the filter stage
followed by the color transform; `none` models `discard`. -/
def shade (tex : Vec2 → Vec4) (filter_type address : ℤ) (source_size : Vec2)
    (tex_region : TexRegion) (scale : ℚ) (color_matrix_body : Mat4)
    (color_matrix_translation varying_color_scale : Vec4) (pos : Vec2) : Option Vec4 :=
  (filterColor tex filter_type address source_size tex_region scale pos).map
    (colorTransform color_matrix_body color_matrix_translation varying_color_scale)

/-- Division instrumented to report a division by zero as an error. -/
def divChecked (x y : ℚ) : Except Unit ℚ :=
  if y = 0 then Except.error () else Except.ok (x / y)

/-- `colorTransform` with its un-premultiply divisions routed through
`divChecked`, so a division by zero would surface as `Except.error`. -/
def colorTransformChecked (color_matrix_body : Mat4) (color_matrix_translation : Vec4)
    (varying_color_scale : Vec4) (color : Vec4) : Except Unit Vec4 := do
  let c ←
    if 0 < color.a then do
      let r ← divChecked color.r color.a
      let g ← divChecked color.g color.a
      let b ← divChecked color.b color.a
      pure (⟨r, g, b, color.a⟩ : Vec4)
    else pure color
  let c := (color_matrix_body.mulVec c).add color_matrix_translation
  let c := c.hadamard varying_color_scale
  let c := c.clamp01
  pure (⟨c.r * c.a, c.g * c.a, c.b * c.a, c.a⟩ : Vec4)

/-- Character class of the first character of a `glslIdentifier` match:
`[_a-zA-Z]`. -/
def isIdentStart (c : Char) : Bool :=
  c = '_' || ('a' ≤ c && c ≤ 'z') || ('A' ≤ c && c ≤ 'Z')

/-- Character class of the later characters of a `glslIdentifier` match:
`[_a-zA-Z0-9]`. -/
def isIdentCont (c : Char) : Bool :=
  isIdentStart c || ('0' ≤ c && c ≤ '9')

/-- Go `strings.Split(src, "\n")`: the list of lines of a source text. -/
def splitLines : List Char → List (List Char)
  | [] => [[]]
  | c :: rest =>
    if c = '\n' then [] :: splitLines rest
    else
      match splitLines rest with
      | [] => [[c]]
      | l :: ls => (c :: l) :: ls

/-- The comment-stripping step of `checkGLSL`: `if strings.Contains(l, "//")
then l = l[:strings.Index(l, "//")]`, i.e. truncate a line at its first
occurrence of two consecutive slashes. -/
def stripLineComment : List Char → List Char
  | [] => []
  | '/' :: '/' :: _ => []
  | c :: rest => c :: stripLineComment rest

/-- `glslIdentifier.FindAllString(l, -1)`: the leftmost-longest,
non-overlapping matches of `[_a-zA-Z][_a-zA-Z0-9]*` in a line. -/
def tokenize : List Char → List (List Char)
  | [] => []
  | c :: rest =>
    if isIdentStart c then
      (c :: rest.takeWhile isIdentCont) :: tokenize (rest.dropWhile isIdentCont)
    else tokenize rest
termination_by l => l.length
decreasing_by
  all_goals simp only [List.length_cons]
  · exact Nat.lt_succ_of_le (List.dropWhile_sublist _).length_le
  · exact Nat.lt_succ_self _

/-- The reserved-keyword set of `shader.go`, as the list of its keys. -/
def glslReservedKeywords : List (List Char) :=
  ["common".toList, "partition".toList, "active".toList,
   "asm".toList,
   "class".toList, "union".toList, "enum".toList, "typedef".toList, "template".toList,
   "this".toList,
   "resource".toList,
   "goto".toList,
   "inline".toList, "noinline".toList, "public".toList, "static".toList, "extern".toList,
   "external".toList, "interface".toList,
   "long".toList, "short".toList, "half".toList, "fixed".toList, "unsigned".toList,
   "superp".toList,
   "input".toList, "output".toList,
   "hvec2".toList, "hvec3".toList, "hvec4".toList, "fvec2".toList, "fvec3".toList,
   "fvec4".toList,
   "filter".toList,
   "sizeof".toList, "cast".toList,
   "namespace".toList, "using".toList,
   "sampler3DRect".toList]

/-- `checkGLSL(src)`: scan the lines of the assembled program text, truncate
each at its first line comment, tokenize the identifier-shaped substrings,
and report `true` (the Go code panics) when some token is reserved. -/
def checkGLSL (src : List Char) : Bool :=
  (splitLines src).any fun l =>
    (tokenize (stripLineComment l)).any fun token => glslReservedKeywords.contains token

theorem floorMod_eq_fract (x y : ℚ) (hy : y ≠ 0) :
    floorMod x y = if x < 0 then y - y * Int.fract (-x / y) else y * Int.fract (x / y) := by
  unfold floorMod
  split
  · rw [Int.fract]
    field_simp
  · rw [Int.fract]
    field_simp

theorem floorMod_nonneg (x y : ℚ) (hy : 0 < y) : 0 ≤ floorMod x y := by
  rw [floorMod_eq_fract x y hy.ne']
  have h1 := Int.fract_nonneg (-x / y)
  have h2 := Int.fract_lt_one (-x / y)
  have h3 := Int.fract_nonneg (x / y)
  split
  · nlinarith
  · nlinarith

theorem floorMod_le (x y : ℚ) (hy : 0 < y) : floorMod x y ≤ y := by
  rw [floorMod_eq_fract x y hy.ne']
  have h1 := Int.fract_nonneg (-x / y)
  have h3 := Int.fract_nonneg (x / y)
  have h4 := Int.fract_lt_one (x / y)
  split
  · nlinarith
  · nlinarith

theorem floorMod_eq_mul_fract (x y : ℚ) (hy : y ≠ 0) (h : Int.fract (x / y) ≠ 0) :
    floorMod x y = y * Int.fract (x / y) := by
  rw [floorMod_eq_fract x y hy]
  split
  · rw [neg_div, Int.fract_neg h]
    ring
  · rfl

theorem floorMod_add_int_mul (x y : ℚ) (k : ℤ) (hy : 0 < y) (h : Int.fract (x / y) ≠ 0) :
    floorMod (x + k * y) y = floorMod x y := by
  have hd : (x + k * y) / y = x / y + k := by
    field_simp
  have h2 : Int.fract ((x + k * y) / y) = Int.fract (x / y) := by
    rw [hd, Int.fract_add_int]
  rw [floorMod_eq_mul_fract _ _ hy.ne' (by rw [h2]; exact h), h2,
      ← floorMod_eq_mul_fract x y hy.ne' h]

/-- C1 counterexample: with the unit region and `p = (-1, -1)` the Repeat
remap returns exactly `regionMax` on both axes, so the result is not
strictly below `regionMax`. -/
theorem repeat_adjust_escapes_open_interval :
    adjustTexelByAddress ⟨-1, -1⟩ ⟨0, 0, 1, 1⟩ ADDRESS_REPEAT = ⟨1, 1⟩ ∧
    ¬ ((adjustTexelByAddress ⟨-1, -1⟩ ⟨0, 0, 1, 1⟩ ADDRESS_REPEAT).x < (1 : ℚ)) := by
  norm_num [adjustTexelByAddress, ADDRESS_REPEAT, ADDRESS_CLAMP_TO_ZERO, floorMod]

/-- C1 (amended): for every region with `xMin < xMax` and `yMin < yMax` and
every coordinate, the Repeat-mode remap `adjustTexelByAddress` lands in the
closed interval `[regionMin, regionMax]` on each axis (the right endpoint is
attained, e.g. when `p - regionMin` is a negative integer multiple of the
region size, so the interval cannot be taken half-open). -/
theorem repeat_adjust_within_closed_region (r : TexRegion) (p : Vec2)
    (hx : r.xMin < r.xMax) (hy : r.yMin < r.yMax) :
    r.xMin ≤ (adjustTexelByAddress p r ADDRESS_REPEAT).x ∧
    (adjustTexelByAddress p r ADDRESS_REPEAT).x ≤ r.xMax ∧
    r.yMin ≤ (adjustTexelByAddress p r ADDRESS_REPEAT).y ∧
    (adjustTexelByAddress p r ADDRESS_REPEAT).y ≤ r.yMax := by
  have hsx : (0 : ℚ) < r.xMax - r.xMin := by linarith
  have hsy : (0 : ℚ) < r.yMax - r.yMin := by linarith
  simp only [adjustTexelByAddress, ADDRESS_REPEAT, ADDRESS_CLAMP_TO_ZERO]
  norm_num
  refine ⟨?_, ?_, ?_, ?_⟩
  · linarith [floorMod_nonneg (p.x - r.xMin) (r.xMax - r.xMin) hsx]
  · linarith [floorMod_le (p.x - r.xMin) (r.xMax - r.xMin) hsx]
  · linarith [floorMod_nonneg (p.y - r.yMin) (r.yMax - r.yMin) hsy]
  · linarith [floorMod_le (p.y - r.yMin) (r.yMax - r.yMin) hsy]

/-- C1 witness: the closed-interval bound instantiated at the unit region
and `p = (1/3, -5)`. -/
theorem repeat_adjust_within_closed_region_witness :
    (0 : ℚ) < 1 ∧
    ((0 : ℚ) ≤ (adjustTexelByAddress ⟨1/3, -5⟩ ⟨0, 0, 1, 1⟩ ADDRESS_REPEAT).x ∧
     (adjustTexelByAddress ⟨1/3, -5⟩ ⟨0, 0, 1, 1⟩ ADDRESS_REPEAT).x ≤ 1 ∧
     (0 : ℚ) ≤ (adjustTexelByAddress ⟨1/3, -5⟩ ⟨0, 0, 1, 1⟩ ADDRESS_REPEAT).y ∧
     (adjustTexelByAddress ⟨1/3, -5⟩ ⟨0, 0, 1, 1⟩ ADDRESS_REPEAT).y ≤ 1) :=
  ⟨by norm_num,
   repeat_adjust_within_closed_region ⟨0, 0, 1, 1⟩ ⟨1/3, -5⟩ (by norm_num) (by norm_num)⟩

/-- C2 counterexample: with the unit region, `p = (0, 0)` and `k = -1` the
Repeat remap of `p + k * size` differs from that of `p`: the left-hand side
is `(1, 1)` while the right-hand side is `(0, 0)`, refuting unrestricted
periodicity. -/
theorem repeat_adjust_periodicity_fails_at_multiple :
    adjustTexelByAddress ⟨0 + (-1) * (1 - 0), 0 + (-1) * (1 - 0)⟩ ⟨0, 0, 1, 1⟩ ADDRESS_REPEAT ≠
      adjustTexelByAddress ⟨0, 0⟩ ⟨0, 0, 1, 1⟩ ADDRESS_REPEAT := by
  norm_num [adjustTexelByAddress, ADDRESS_REPEAT, ADDRESS_CLAMP_TO_ZERO, floorMod]

/-- C2 (amended): Repeat-mode addressing is periodic in the region extent on
each axis, `adjust(p + k*size) = adjust(p)` for every integer `k`, provided
`(p - regionMin) / size` is not an integer on either axis (at exact
multiples the two sides of the `x < 0` test of `floorMod` disagree). -/
theorem repeat_adjust_periodic_of_fract_ne_zero (r : TexRegion) (p : Vec2) (k : ℤ)
    (hx : r.xMin < r.xMax) (hy : r.yMin < r.yMax)
    (hfx : Int.fract ((p.x - r.xMin) / (r.xMax - r.xMin)) ≠ 0)
    (hfy : Int.fract ((p.y - r.yMin) / (r.yMax - r.yMin)) ≠ 0) :
    adjustTexelByAddress ⟨p.x + k * (r.xMax - r.xMin), p.y + k * (r.yMax - r.yMin)⟩ r
        ADDRESS_REPEAT =
      adjustTexelByAddress p r ADDRESS_REPEAT := by
  have hsx : (0 : ℚ) < r.xMax - r.xMin := by linarith
  have hsy : (0 : ℚ) < r.yMax - r.yMin := by linarith
  simp only [adjustTexelByAddress, ADDRESS_REPEAT, ADDRESS_CLAMP_TO_ZERO]
  norm_num
  constructor
  · rw [show p.x + (k : ℚ) * (r.xMax - r.xMin) - r.xMin
          = (p.x - r.xMin) + (k : ℚ) * (r.xMax - r.xMin) by ring]
    rw [floorMod_add_int_mul _ _ k hsx hfx]
  · rw [show p.y + (k : ℚ) * (r.yMax - r.yMin) - r.yMin
          = (p.y - r.yMin) + (k : ℚ) * (r.yMax - r.yMin) by ring]
    rw [floorMod_add_int_mul _ _ k hsy hfy]

/-- C2 witness: periodicity instantiated at the unit region, `p = (1/2, 1/3)`
and `k = -2`. -/
theorem repeat_adjust_periodic_of_fract_ne_zero_witness :
    Int.fract (((1 : ℚ)/2 - 0) / (1 - 0)) ≠ 0 ∧
    Int.fract (((1 : ℚ)/3 - 0) / (1 - 0)) ≠ 0 ∧
    adjustTexelByAddress ⟨1/2 + ((-2 : ℤ) : ℚ) * (1 - 0), 1/3 + ((-2 : ℤ) : ℚ) * (1 - 0)⟩
        ⟨0, 0, 1, 1⟩ ADDRESS_REPEAT =
      adjustTexelByAddress ⟨1/2, 1/3⟩ ⟨0, 0, 1, 1⟩ ADDRESS_REPEAT :=
  ⟨by norm_num [Int.fract], by norm_num [Int.fract],
   repeat_adjust_periodic_of_fract_ne_zero ⟨0, 0, 1, 1⟩ ⟨1/2, 1/3⟩ (-2)
     (by norm_num) (by norm_num) (by norm_num [Int.fract]) (by norm_num [Int.fract])⟩

/-- C3 counterexample: a filtered color with blended alpha `0` (here exactly
`vec4(0,0,0,0)`) together with the identity matrix body, the translation
`(1,1,1,1)` and the color scale `(1,1,1,1)` makes `shade` output
`(1,1,1,1)`, not `(0,0,0,0)`: the translation column is added after the
alpha guard, so the output is not `(0,0,0,0)` regardless of the matrix. -/
theorem alpha_zero_translation_changes_output :
    filterColor (fun _ => Vec4.zero) FILTER_NEAREST ADDRESS_CLAMP_TO_ZERO ⟨1, 1⟩
        ⟨0, 0, 1, 1⟩ 1 ⟨1/2, 1/2⟩ = some Vec4.zero ∧
    shade (fun _ => Vec4.zero) FILTER_NEAREST ADDRESS_CLAMP_TO_ZERO ⟨1, 1⟩ ⟨0, 0, 1, 1⟩ 1
        mat4Identity ⟨1, 1, 1, 1⟩ ⟨1, 1, 1, 1⟩ ⟨1/2, 1/2⟩ = some ⟨1, 1, 1, 1⟩ ∧
    (⟨1, 1, 1, 1⟩ : Vec4) ≠ Vec4.zero := by
  refine ⟨?_, ?_, ?_⟩ <;>
    norm_num [shade, filterColor, colorTransform, texelSize, adjustTexelByAddress,
      FILTER_NEAREST, ADDRESS_CLAMP_TO_ZERO, ADDRESS_REPEAT, Vec4.zero, Vec4.add,
      Vec4.hadamard, Vec4.clamp01, clampQ, Mat4.mulVec, mat4Identity]

/-- C3 (amended): when the filtered color is exactly `(0,0,0,0)` and the
color-matrix translation is `(0,0,0,0)`, the color-transform stage outputs
`(0,0,0,0)` for every matrix body and every color scale (the original claim
fails for a nonzero translation, and for alpha-zero colors with nonzero RGB
a matrix body with a nonzero alpha row can also produce nonzero output). -/
theorem colorTransform_zero_of_zero_translation (body : Mat4) (cs : Vec4) :
    colorTransform body Vec4.zero cs Vec4.zero = Vec4.zero := by
  norm_num [colorTransform, Vec4.zero, Mat4.mulVec, Vec4.add, Vec4.hadamard,
    Vec4.clamp01, clampQ]

/-- C8: the un-premultiply division of `colorTransform` runs only under the
`0 < alpha` guard: with every division routed through `divChecked`, the
checked color transform never reports a division by zero and agrees with
`colorTransform` on every input, in particular for blended alpha `0`. -/
theorem colorTransformChecked_never_divides_by_zero (body : Mat4) (tr cs c : Vec4) :
    colorTransformChecked body tr cs c = Except.ok (colorTransform body tr cs c) := by
  by_cases h : 0 < c.a
  · simp [colorTransformChecked, colorTransform, divChecked, h, ne_of_gt h,
      Bind.bind, Except.bind, Pure.pure, Except.pure]
  · simp [colorTransformChecked, colorTransform, divChecked, h,
      Bind.bind, Except.bind, Pure.pure, Except.pure]

/-- C6 counterexample: an unrecognized address value (`5`) with a recognized
filter does not discard the pixel: `adjustTexelByAddress` falls into its
`return vec2(0.0)` branch and `shade` still produces a color. -/
theorem unknown_address_does_not_discard :
    (5 : ℤ) ≠ ADDRESS_CLAMP_TO_ZERO ∧ (5 : ℤ) ≠ ADDRESS_REPEAT ∧
    shade (fun _ => ⟨1, 1, 1, 1⟩) FILTER_NEAREST 5 ⟨1, 1⟩ ⟨0, 0, 1, 1⟩ 1
        mat4Identity ⟨0, 0, 0, 0⟩ ⟨1, 1, 1, 1⟩ ⟨0, 0⟩ = some ⟨1, 1, 1, 1⟩ := by
  refine ⟨by norm_num [ADDRESS_CLAMP_TO_ZERO], by norm_num [ADDRESS_REPEAT], ?_⟩
  norm_num [shade, filterColor, colorTransform, texelSize, adjustTexelByAddress,
    FILTER_NEAREST, ADDRESS_CLAMP_TO_ZERO, ADDRESS_REPEAT, Vec4.zero, Vec4.add,
    Vec4.hadamard, Vec4.clamp01, clampQ, Mat4.mulVec, mat4Identity]

/-- C6 (amended): the pixel program discards (produces no color) exactly for
filter enum values outside {Nearest, Linear, Screen}, for every address
value; an unrecognized address value with a recognized filter does not
discard — the coordinate becomes `vec2(0.0)` and a color is produced. -/
theorem shade_discards_unknown_filter (tex : Vec2 → Vec4) (filter_type address : ℤ)
    (source_size : Vec2) (r : TexRegion) (scale : ℚ) (body : Mat4) (tr cs : Vec4)
    (pos : Vec2)
    (h1 : filter_type ≠ FILTER_NEAREST) (h2 : filter_type ≠ FILTER_LINEAR)
    (h3 : filter_type ≠ FILTER_SCREEN) :
    shade tex filter_type address source_size r scale body tr cs pos = none := by
  simp [shade, filterColor, h1, h2, h3]

/-- C6 witness: the filter value `7` is discarded. -/
theorem shade_discards_unknown_filter_witness :
    (7 : ℤ) ≠ FILTER_NEAREST ∧ (7 : ℤ) ≠ FILTER_LINEAR ∧ (7 : ℤ) ≠ FILTER_SCREEN ∧
    shade (fun _ => Vec4.zero) 7 0 ⟨1, 1⟩ ⟨0, 0, 1, 1⟩ 1 mat4Identity Vec4.zero Vec4.zero
        ⟨0, 0⟩ = none :=
  ⟨by norm_num [FILTER_NEAREST], by norm_num [FILTER_LINEAR], by norm_num [FILTER_SCREEN],
   shade_discards_unknown_filter (fun _ => Vec4.zero) 7 0 ⟨1, 1⟩ ⟨0, 0, 1, 1⟩ 1
     mat4Identity Vec4.zero Vec4.zero ⟨0, 0⟩
     (by norm_num [FILTER_NEAREST]) (by norm_num [FILTER_LINEAR])
     (by norm_num [FILTER_SCREEN])⟩

/-- C10: in the Nearest branch the region-bounds transparent-black
substitution applies for every address mode: whenever the address-adjusted
coordinate is below the region minimum or at or beyond the epsilon-shrunk
region maximum on either axis, the filter-stage color is `(0,0,0,0)`. -/
theorem nearest_zeroes_outside_region_any_address (tex : Vec2 → Vec4) (address : ℤ)
    (source_size : Vec2) (r : TexRegion) (scale : ℚ) (pos : Vec2)
    (h : (adjustTexelByAddress pos r address).x < r.xMin ∨
         (adjustTexelByAddress pos r address).y < r.yMin ∨
         r.xMax - (texelSize source_size).x / 512 ≤ (adjustTexelByAddress pos r address).x ∨
         r.yMax - (texelSize source_size).y / 512 ≤ (adjustTexelByAddress pos r address).y) :
    filterColor tex FILTER_NEAREST address source_size r scale pos = some Vec4.zero := by
  simp only [filterColor, if_true]
  rw [if_pos h]

/-- C10 witness: under Repeat addressing, a coordinate whose wrap lands in
the epsilon margin below `xMax` is substituted by transparent black even
though the sampled texel color is `(1,1,1,1)`. -/
theorem nearest_zeroes_outside_region_any_address_witness :
    ((adjustTexelByAddress ⟨1 - 1/1024, 1/2⟩ ⟨0, 0, 1, 1⟩ ADDRESS_REPEAT).x <
        (0 : ℚ) ∨
     (adjustTexelByAddress ⟨1 - 1/1024, 1/2⟩ ⟨0, 0, 1, 1⟩ ADDRESS_REPEAT).y < (0 : ℚ) ∨
     (1 : ℚ) - (texelSize ⟨1, 1⟩).x / 512 ≤
        (adjustTexelByAddress ⟨1 - 1/1024, 1/2⟩ ⟨0, 0, 1, 1⟩ ADDRESS_REPEAT).x ∨
     (1 : ℚ) - (texelSize ⟨1, 1⟩).y / 512 ≤
        (adjustTexelByAddress ⟨1 - 1/1024, 1/2⟩ ⟨0, 0, 1, 1⟩ ADDRESS_REPEAT).y) ∧
    filterColor (fun _ => ⟨1, 1, 1, 1⟩) FILTER_NEAREST ADDRESS_REPEAT ⟨1, 1⟩
        ⟨0, 0, 1, 1⟩ 1 ⟨1 - 1/1024, 1/2⟩ = some Vec4.zero :=
  ⟨by norm_num [adjustTexelByAddress, ADDRESS_REPEAT, ADDRESS_CLAMP_TO_ZERO, floorMod,
      texelSize],
   nearest_zeroes_outside_region_any_address (fun _ => ⟨1, 1, 1, 1⟩) ADDRESS_REPEAT
     ⟨1, 1⟩ ⟨0, 0, 1, 1⟩ 1 ⟨1 - 1/1024, 1/2⟩
     (by norm_num [adjustTexelByAddress, ADDRESS_REPEAT, ADDRESS_CLAMP_TO_ZERO, floorMod,
        texelSize])⟩

theorem clampQ_nonneg (x : ℚ) : 0 ≤ clampQ x 0 1 :=
  le_min (le_max_right x 0) (by norm_num)

theorem clampQ_le_one (x : ℚ) : clampQ x 0 1 ≤ 1 :=
  min_le_right _ _

theorem premult_component_bounds (x a : ℚ) :
    0 ≤ clampQ x 0 1 * clampQ a 0 1 ∧ clampQ x 0 1 * clampQ a 0 1 ≤ 1 ∧
    clampQ x 0 1 * clampQ a 0 1 ≤ clampQ a 0 1 := by
  have h1 := clampQ_nonneg x
  have h2 := clampQ_le_one x
  have h3 := clampQ_nonneg a
  have h4 := clampQ_le_one a
  refine ⟨mul_nonneg h1 h3, ?_, ?_⟩ <;> nlinarith

theorem colorTransform_mem_unit (body : Mat4) (tr cs c : Vec4) :
    0 ≤ (colorTransform body tr cs c).r ∧ (colorTransform body tr cs c).r ≤ 1 ∧
    0 ≤ (colorTransform body tr cs c).g ∧ (colorTransform body tr cs c).g ≤ 1 ∧
    0 ≤ (colorTransform body tr cs c).b ∧ (colorTransform body tr cs c).b ≤ 1 ∧
    0 ≤ (colorTransform body tr cs c).a ∧ (colorTransform body tr cs c).a ≤ 1 ∧
    (colorTransform body tr cs c).r ≤ (colorTransform body tr cs c).a ∧
    (colorTransform body tr cs c).g ≤ (colorTransform body tr cs c).a ∧
    (colorTransform body tr cs c).b ≤ (colorTransform body tr cs c).a := by
  unfold colorTransform
  dsimp only [Vec4.clamp01]
  exact ⟨(premult_component_bounds _ _).1, (premult_component_bounds _ _).2.1,
    (premult_component_bounds _ _).1, (premult_component_bounds _ _).2.1,
    (premult_component_bounds _ _).1, (premult_component_bounds _ _).2.1,
    clampQ_nonneg _, clampQ_le_one _,
    (premult_component_bounds _ _).2.2, (premult_component_bounds _ _).2.2,
    (premult_component_bounds _ _).2.2⟩

/-- C9: whenever `shade` produces an output color, every channel lies in
`[0, 1]` and each RGB channel is at most the alpha channel: the clamp to
`[0,1]` followed by re-premultiplication always yields a valid
premultiplied-alpha color. -/
theorem shade_output_clamped_premultiplied (tex : Vec2 → Vec4) (filter_type address : ℤ)
    (source_size : Vec2) (r : TexRegion) (scale : ℚ) (body : Mat4) (tr cs : Vec4)
    (pos : Vec2) (v : Vec4)
    (h : shade tex filter_type address source_size r scale body tr cs pos = some v) :
    0 ≤ v.r ∧ v.r ≤ 1 ∧ 0 ≤ v.g ∧ v.g ≤ 1 ∧ 0 ≤ v.b ∧ v.b ≤ 1 ∧ 0 ≤ v.a ∧ v.a ≤ 1 ∧
    v.r ≤ v.a ∧ v.g ≤ v.a ∧ v.b ≤ v.a := by
  unfold shade at h
  cases hf : filterColor tex filter_type address source_size r scale pos with
  | none => rw [hf] at h; simp at h
  | some c =>
    rw [hf] at h
    simp only [Option.map_some', Option.some.injEq] at h
    rw [← h]
    exact colorTransform_mem_unit body tr cs c

/-- C9 witness: the invariant instantiated at a concrete Nearest-filter
evaluation whose output is `(1,1,1,1)`. -/
theorem shade_output_clamped_premultiplied_witness :
    shade (fun _ => ⟨1, 1, 1, 1⟩) FILTER_NEAREST ADDRESS_CLAMP_TO_ZERO ⟨1, 1⟩
        ⟨0, 0, 1, 1⟩ 1 mat4Identity ⟨0, 0, 0, 0⟩ ⟨1, 1, 1, 1⟩ ⟨0, 0⟩ =
      some ⟨1, 1, 1, 1⟩ ∧
    ((0 : ℚ) ≤ (⟨1, 1, 1, 1⟩ : Vec4).r ∧ (⟨1, 1, 1, 1⟩ : Vec4).r ≤ 1 ∧
     (0 : ℚ) ≤ (⟨1, 1, 1, 1⟩ : Vec4).g ∧ (⟨1, 1, 1, 1⟩ : Vec4).g ≤ 1 ∧
     (0 : ℚ) ≤ (⟨1, 1, 1, 1⟩ : Vec4).b ∧ (⟨1, 1, 1, 1⟩ : Vec4).b ≤ 1 ∧
     (0 : ℚ) ≤ (⟨1, 1, 1, 1⟩ : Vec4).a ∧ (⟨1, 1, 1, 1⟩ : Vec4).a ≤ 1 ∧
     (⟨1, 1, 1, 1⟩ : Vec4).r ≤ (⟨1, 1, 1, 1⟩ : Vec4).a ∧
     (⟨1, 1, 1, 1⟩ : Vec4).g ≤ (⟨1, 1, 1, 1⟩ : Vec4).a ∧
     (⟨1, 1, 1, 1⟩ : Vec4).b ≤ (⟨1, 1, 1, 1⟩ : Vec4).a) :=
  have hs : shade (fun _ => ⟨1, 1, 1, 1⟩) FILTER_NEAREST ADDRESS_CLAMP_TO_ZERO ⟨1, 1⟩
      ⟨0, 0, 1, 1⟩ 1 mat4Identity ⟨0, 0, 0, 0⟩ ⟨1, 1, 1, 1⟩ ⟨0, 0⟩ = some ⟨1, 1, 1, 1⟩ := by
    norm_num [shade, filterColor, colorTransform, texelSize, adjustTexelByAddress,
      FILTER_NEAREST, ADDRESS_CLAMP_TO_ZERO, ADDRESS_REPEAT, Vec4.zero, Vec4.add,
      Vec4.hadamard, Vec4.clamp01, clampQ, Mat4.mulVec, mat4Identity]
  ⟨hs, shade_output_clamped_premultiplied (fun _ => ⟨1, 1, 1, 1⟩) FILTER_NEAREST
    ADDRESS_CLAMP_TO_ZERO ⟨1, 1⟩ ⟨0, 0, 1, 1⟩ 1 mat4Identity ⟨0, 0, 0, 0⟩ ⟨1, 1, 1, 1⟩
    ⟨0, 0⟩ ⟨1, 1, 1, 1⟩ hs⟩

theorem fract_eq_int_fract (x : ℚ) : fract x = Int.fract x := rfl

theorem clampQ_fract (x : ℚ) : clampQ (fract x) 0 1 = fract x := by
  unfold clampQ
  rw [max_eq_left (by rw [fract_eq_int_fract]; exact Int.fract_nonneg x),
      min_eq_left (le_of_lt (by rw [fract_eq_int_fract]; exact Int.fract_lt_one x))]

/-- C4 counterexample: at `pos = (0,0)` with the unit region, ClampToZero and
`scale = 1`, the Linear branch zeroes three corners by the region-edge tests
while the Screen branch performs no such tests, so the two `shade` outputs
differ (`(1/4,...)` versus `(1,...)`) with otherwise identical parameters. -/
theorem screen_vs_linear_counterexample :
    shade (fun _ => ⟨1, 1, 1, 1⟩) FILTER_SCREEN ADDRESS_CLAMP_TO_ZERO ⟨1, 1⟩ ⟨0, 0, 1, 1⟩ 1
        mat4Identity ⟨0, 0, 0, 0⟩ ⟨1, 1, 1, 1⟩ ⟨0, 0⟩ ≠
      shade (fun _ => ⟨1, 1, 1, 1⟩) FILTER_LINEAR ADDRESS_CLAMP_TO_ZERO ⟨1, 1⟩ ⟨0, 0, 1, 1⟩ 1
        mat4Identity ⟨0, 0, 0, 0⟩ ⟨1, 1, 1, 1⟩ ⟨0, 0⟩ := by
  norm_num [shade, filterColor, colorTransform, texelSize, adjustTexel, adjustTexelByAddress,
    FILTER_SCREEN, FILTER_LINEAR, FILTER_NEAREST, ADDRESS_CLAMP_TO_ZERO, ADDRESS_REPEAT,
    fract, mixQ, Vec4.mix, Vec4.zero, clampQ, Vec4.clamp01, Vec4.hadamard, Vec4.add,
    Mat4.mulVec, mat4Identity]

/-- C4 (amended): for `scale = 1`, address mode ClampToZero, and positions
where none of the Linear branch's region-edge tests fires (`p0` at or above
the region minimum on both axes and the jaggy-adjusted `p1` strictly below
the epsilon-shrunk region maximum on both axes), the Screen branch of
`shade` equals the Linear branch with the same parameters. -/
theorem screen_scale_one_eq_linear_away_from_edges (tex : Vec2 → Vec4)
    (source_size : Vec2) (r : TexRegion) (body : Mat4) (tr cs : Vec4) (pos : Vec2)
    (h1 : ¬ (pos.x - (texelSize source_size).x / 2 < r.xMin))
    (h2 : ¬ (pos.y - (texelSize source_size).y / 2 < r.yMin))
    (h3 : ¬ (r.xMax - (texelSize source_size).x / 512 ≤
        (adjustTexel source_size
          ⟨pos.x - (texelSize source_size).x / 2, pos.y - (texelSize source_size).y / 2⟩
          ⟨pos.x + (texelSize source_size).x / 2, pos.y + (texelSize source_size).y / 2⟩).x))
    (h4 : ¬ (r.yMax - (texelSize source_size).y / 512 ≤
        (adjustTexel source_size
          ⟨pos.x - (texelSize source_size).x / 2, pos.y - (texelSize source_size).y / 2⟩
          ⟨pos.x + (texelSize source_size).x / 2, pos.y + (texelSize source_size).y / 2⟩).y)) :
    shade tex FILTER_SCREEN ADDRESS_CLAMP_TO_ZERO source_size r 1 body tr cs pos =
      shade tex FILTER_LINEAR ADDRESS_CLAMP_TO_ZERO source_size r 1 body tr cs pos := by
  unfold shade
  have hfc : filterColor tex FILTER_SCREEN ADDRESS_CLAMP_TO_ZERO source_size r 1 pos =
      filterColor tex FILTER_LINEAR ADDRESS_CLAMP_TO_ZERO source_size r 1 pos := by
    have h3' : ¬ (r.xMax ≤
        (adjustTexel source_size
          ⟨pos.x - (texelSize source_size).x / 2, pos.y - (texelSize source_size).y / 2⟩
          ⟨pos.x + (texelSize source_size).x / 2, pos.y + (texelSize source_size).y / 2⟩).x +
        (texelSize source_size).x / 512) := fun hc => h3 (by linarith)
    have h4' : ¬ (r.yMax ≤
        (adjustTexel source_size
          ⟨pos.x - (texelSize source_size).x / 2, pos.y - (texelSize source_size).y / 2⟩
          ⟨pos.x + (texelSize source_size).x / 2, pos.y + (texelSize source_size).y / 2⟩).y +
        (texelSize source_size).y / 512) := fun hc => h4 (by linarith)
    simp only [filterColor, FILTER_SCREEN, FILTER_LINEAR, FILTER_NEAREST,
      ADDRESS_CLAMP_TO_ZERO, adjustTexelByAddress, div_one, mul_one]
    norm_num
    simp [h1, h2, h3, h4, h3', h4', sub_add_cancel, clampQ_fract]
  rw [hfc]

/-- C4 witness: the Screen/Linear agreement instantiated at a 2x2 source,
the unit region and the interior position `(1/2, 1/2)`. -/
theorem screen_scale_one_witness :
    (¬ ((1 : ℚ)/2 - (texelSize ⟨2, 2⟩).x / 2 < 0)) ∧
    (¬ ((1 : ℚ)/2 - (texelSize ⟨2, 2⟩).y / 2 < 0)) ∧
    (¬ ((1 : ℚ) - (texelSize ⟨2, 2⟩).x / 512 ≤
        (adjustTexel ⟨2, 2⟩
          ⟨1/2 - (texelSize ⟨2, 2⟩).x / 2, 1/2 - (texelSize ⟨2, 2⟩).y / 2⟩
          ⟨1/2 + (texelSize ⟨2, 2⟩).x / 2, 1/2 + (texelSize ⟨2, 2⟩).y / 2⟩).x)) ∧
    (¬ ((1 : ℚ) - (texelSize ⟨2, 2⟩).y / 512 ≤
        (adjustTexel ⟨2, 2⟩
          ⟨1/2 - (texelSize ⟨2, 2⟩).x / 2, 1/2 - (texelSize ⟨2, 2⟩).y / 2⟩
          ⟨1/2 + (texelSize ⟨2, 2⟩).x / 2, 1/2 + (texelSize ⟨2, 2⟩).y / 2⟩).y)) ∧
    shade (fun _ => ⟨1, 0, 0, 1⟩) FILTER_SCREEN ADDRESS_CLAMP_TO_ZERO ⟨2, 2⟩ ⟨0, 0, 1, 1⟩ 1
        mat4Identity ⟨0, 0, 0, 0⟩ ⟨1, 1, 1, 1⟩ ⟨1/2, 1/2⟩ =
      shade (fun _ => ⟨1, 0, 0, 1⟩) FILTER_LINEAR ADDRESS_CLAMP_TO_ZERO ⟨2, 2⟩ ⟨0, 0, 1, 1⟩ 1
        mat4Identity ⟨0, 0, 0, 0⟩ ⟨1, 1, 1, 1⟩ ⟨1/2, 1/2⟩ :=
  ⟨by norm_num [texelSize], by norm_num [texelSize],
   by norm_num [texelSize, adjustTexel, fract],
   by norm_num [texelSize, adjustTexel, fract],
   screen_scale_one_eq_linear_away_from_edges (fun _ => ⟨1, 0, 0, 1⟩) ⟨2, 2⟩ ⟨0, 0, 1, 1⟩
     mat4Identity ⟨0, 0, 0, 0⟩ ⟨1, 1, 1, 1⟩ ⟨1/2, 1/2⟩
     (by norm_num [texelSize]) (by norm_num [texelSize])
     (by norm_num [texelSize, adjustTexel, fract])
     (by norm_num [texelSize, adjustTexel, fract])⟩

theorem mix_mix_half (c0 c1 c2 c3 : Vec4) :
    (c0.mix c1 (1/2)).mix (c2.mix c3 (1/2)) (1/2) =
      Vec4.scale (1/4) ((c0.add c1).add (c2.add c3)) := by
  simp only [Vec4.mix, mixQ, Vec4.scale, Vec4.add, Vec4.mk.injEq]
  refine ⟨by ring, by ring, by ring, by ring⟩

theorem filterColor_linear_clamp_formula (tex : Vec2 → Vec4) (ss : Vec2) (r : TexRegion)
    (scale : ℚ) (pos : Vec2)
    (h1 : ¬ (pos.x - (texelSize ss).x / 2 < r.xMin))
    (h2 : ¬ (pos.y - (texelSize ss).y / 2 < r.yMin))
    (h3 : ¬ (r.xMax - (texelSize ss).x / 512 ≤
        (adjustTexel ss ⟨pos.x - (texelSize ss).x / 2, pos.y - (texelSize ss).y / 2⟩
          ⟨pos.x + (texelSize ss).x / 2, pos.y + (texelSize ss).y / 2⟩).x))
    (h4 : ¬ (r.yMax - (texelSize ss).y / 512 ≤
        (adjustTexel ss ⟨pos.x - (texelSize ss).x / 2, pos.y - (texelSize ss).y / 2⟩
          ⟨pos.x + (texelSize ss).x / 2, pos.y + (texelSize ss).y / 2⟩).y)) :
    filterColor tex FILTER_LINEAR ADDRESS_CLAMP_TO_ZERO ss r scale pos =
      some ((Vec4.mix
              (tex ⟨pos.x - (texelSize ss).x / 2, pos.y - (texelSize ss).y / 2⟩)
              (tex ⟨(adjustTexel ss ⟨pos.x - (texelSize ss).x / 2, pos.y - (texelSize ss).y / 2⟩
                      ⟨pos.x + (texelSize ss).x / 2, pos.y + (texelSize ss).y / 2⟩).x,
                    pos.y - (texelSize ss).y / 2⟩)
              (fract ((pos.x - (texelSize ss).x / 2) * ss.x))).mix
            (Vec4.mix
              (tex ⟨pos.x - (texelSize ss).x / 2,
                    (adjustTexel ss ⟨pos.x - (texelSize ss).x / 2, pos.y - (texelSize ss).y / 2⟩
                      ⟨pos.x + (texelSize ss).x / 2, pos.y + (texelSize ss).y / 2⟩).y⟩)
              (tex (adjustTexel ss ⟨pos.x - (texelSize ss).x / 2, pos.y - (texelSize ss).y / 2⟩
                      ⟨pos.x + (texelSize ss).x / 2, pos.y + (texelSize ss).y / 2⟩))
              (fract ((pos.x - (texelSize ss).x / 2) * ss.x)))
            (fract ((pos.y - (texelSize ss).y / 2) * ss.y))) := by
  have h3' : ¬ (r.xMax ≤
      (adjustTexel ss ⟨pos.x - (texelSize ss).x / 2, pos.y - (texelSize ss).y / 2⟩
        ⟨pos.x + (texelSize ss).x / 2, pos.y + (texelSize ss).y / 2⟩).x +
      (texelSize ss).x / 512) := fun hc => h3 (by linarith)
  have h4' : ¬ (r.yMax ≤
      (adjustTexel ss ⟨pos.x - (texelSize ss).x / 2, pos.y - (texelSize ss).y / 2⟩
        ⟨pos.x + (texelSize ss).x / 2, pos.y + (texelSize ss).y / 2⟩).y +
      (texelSize ss).y / 512) := fun hc => h4 (by linarith)
  simp only [filterColor, FILTER_LINEAR, FILTER_NEAREST, ADDRESS_CLAMP_TO_ZERO,
    adjustTexelByAddress]
  norm_num
  simp [h1, h2, h3, h4, h3', h4']

/-- C5: at a position exactly midway between four texel centers (i.e. at a
texel-corner `(i/W, j/H)`), with ClampToZero addressing and no edge-zeroing
firing, the Linear branch — including the unconditionally triggered
jaggy-epsilon adjustment of `p1` and the `rate = fract(p0 * sourceSize)`
mix — returns exactly the average `(c0+c1+c2+c3)/4` of the four surrounding
texel colors. -/
theorem linear_midpoint_averages_four_texels (grid : ℤ → ℤ → Vec4) (W H : ℚ)
    (i j : ℤ) (r : TexRegion) (scale : ℚ) (hW : 0 < W) (hH : 0 < H)
    (h1 : ¬ ((i : ℚ)/W - (texelSize ⟨W, H⟩).x / 2 < r.xMin))
    (h2 : ¬ ((j : ℚ)/H - (texelSize ⟨W, H⟩).y / 2 < r.yMin))
    (h3 : ¬ (r.xMax - (texelSize ⟨W, H⟩).x / 512 ≤
        (adjustTexel ⟨W, H⟩
          ⟨(i : ℚ)/W - (texelSize ⟨W, H⟩).x / 2, (j : ℚ)/H - (texelSize ⟨W, H⟩).y / 2⟩
          ⟨(i : ℚ)/W + (texelSize ⟨W, H⟩).x / 2, (j : ℚ)/H + (texelSize ⟨W, H⟩).y / 2⟩).x))
    (h4 : ¬ (r.yMax - (texelSize ⟨W, H⟩).y / 512 ≤
        (adjustTexel ⟨W, H⟩
          ⟨(i : ℚ)/W - (texelSize ⟨W, H⟩).x / 2, (j : ℚ)/H - (texelSize ⟨W, H⟩).y / 2⟩
          ⟨(i : ℚ)/W + (texelSize ⟨W, H⟩).x / 2, (j : ℚ)/H + (texelSize ⟨W, H⟩).y / 2⟩).y)) :
    filterColor (fun p => grid ⌊p.x * W⌋ ⌊p.y * H⌋) FILTER_LINEAR ADDRESS_CLAMP_TO_ZERO
        ⟨W, H⟩ r scale ⟨(i : ℚ)/W, (j : ℚ)/H⟩ =
      some (Vec4.scale (1/4)
        (((grid (i-1) (j-1)).add (grid i (j-1))).add ((grid (i-1) j).add (grid i j)))) := by
  have hW0 : W ≠ 0 := hW.ne'
  have hH0 : H ≠ 0 := hH.ne'
  have hts : texelSize ⟨W, H⟩ = ⟨1/W, 1/H⟩ := rfl
  have hadj : adjustTexel ⟨W, H⟩ ⟨(i : ℚ)/W - 1/W/2, (j : ℚ)/H - 1/H/2⟩
      ⟨(i : ℚ)/W + 1/W/2, (j : ℚ)/H + 1/H/2⟩ =
      ⟨(i : ℚ)/W + 1/W/2 - 1/W/512, (j : ℚ)/H + 1/H/2 - 1/H/512⟩ := by
    simp only [adjustTexel, texelSize]
    rw [show ((i : ℚ)/W + 1/W/2 - ((i : ℚ)/W - 1/W/2)) * W = 1 by field_simp; ring,
        show ((j : ℚ)/H + 1/H/2 - ((j : ℚ)/H - 1/H/2)) * H = 1 by field_simp; ring,
        show fract (1 : ℚ) = 0 by norm_num [fract]]
    simp
  have e0x : ((i : ℚ)/W - 1/W/2) * W = (1 : ℚ)/2 + ((i - 1 : ℤ) : ℚ) := by
    field_simp
    ring
  have e0y : ((j : ℚ)/H - 1/H/2) * H = (1 : ℚ)/2 + ((j - 1 : ℤ) : ℚ) := by
    field_simp
    ring
  have e1x : ((i : ℚ)/W + 1/W/2 - 1/W/512) * W = (255 : ℚ)/512 + (i : ℚ) := by
    field_simp
    ring
  have e1y : ((j : ℚ)/H + 1/H/2 - 1/H/512) * H = (255 : ℚ)/512 + (j : ℚ) := by
    field_simp
    ring
  have f0x : ⌊((i : ℚ)/W - 1/W/2) * W⌋ = i - 1 := by
    rw [e0x, Int.floor_add_int]
    norm_num
  have f0y : ⌊((j : ℚ)/H - 1/H/2) * H⌋ = j - 1 := by
    rw [e0y, Int.floor_add_int]
    norm_num
  have f1x : ⌊((i : ℚ)/W + 1/W/2 - 1/W/512) * W⌋ = i := by
    rw [e1x, show ((i : ℚ)) = ((i : ℤ) : ℚ) from rfl, Int.floor_add_int]
    norm_num
  have f1y : ⌊((j : ℚ)/H + 1/H/2 - 1/H/512) * H⌋ = j := by
    rw [e1y, show ((j : ℚ)) = ((j : ℤ) : ℚ) from rfl, Int.floor_add_int]
    norm_num
  have r0x : fract (((i : ℚ)/W - 1/W/2) * W) = 1/2 := by
    rw [fract, f0x, e0x]
    push_cast
    ring
  have r0y : fract (((j : ℚ)/H - 1/H/2) * H) = 1/2 := by
    rw [fract, f0y, e0y]
    push_cast
    ring
  rw [filterColor_linear_clamp_formula (fun p => grid ⌊p.x * W⌋ ⌊p.y * H⌋) ⟨W, H⟩ r scale
    ⟨(i : ℚ)/W, (j : ℚ)/H⟩ h1 h2 h3 h4]
  simp only [hts]
  rw [hadj]
  rw [f0x, f0y, f1x, f1y, r0x, r0y, mix_mix_half]

/-- C5 witness: the midpoint average instantiated on a 2x2 source at the
corner `(1/2, 1/2)` of the unit region, with texel colors read off a
coordinate-valued grid. -/
theorem linear_midpoint_averages_four_texels_witness :
    (¬ (((1 : ℤ) : ℚ)/2 - (texelSize ⟨2, 2⟩).x / 2 < (0 : ℚ))) ∧
    (¬ (((1 : ℤ) : ℚ)/2 - (texelSize ⟨2, 2⟩).y / 2 < (0 : ℚ))) ∧
    (¬ ((1 : ℚ) - (texelSize ⟨2, 2⟩).x / 512 ≤
        (adjustTexel ⟨2, 2⟩
          ⟨((1 : ℤ) : ℚ)/2 - (texelSize ⟨2, 2⟩).x / 2,
           ((1 : ℤ) : ℚ)/2 - (texelSize ⟨2, 2⟩).y / 2⟩
          ⟨((1 : ℤ) : ℚ)/2 + (texelSize ⟨2, 2⟩).x / 2,
           ((1 : ℤ) : ℚ)/2 + (texelSize ⟨2, 2⟩).y / 2⟩).x)) ∧
    (¬ ((1 : ℚ) - (texelSize ⟨2, 2⟩).y / 512 ≤
        (adjustTexel ⟨2, 2⟩
          ⟨((1 : ℤ) : ℚ)/2 - (texelSize ⟨2, 2⟩).x / 2,
           ((1 : ℤ) : ℚ)/2 - (texelSize ⟨2, 2⟩).y / 2⟩
          ⟨((1 : ℤ) : ℚ)/2 + (texelSize ⟨2, 2⟩).x / 2,
           ((1 : ℤ) : ℚ)/2 + (texelSize ⟨2, 2⟩).y / 2⟩).y)) ∧
    filterColor
        (fun p => (fun (a b : ℤ) => (⟨(a : ℚ), (b : ℚ), 0, 1⟩ : Vec4)) ⌊p.x * 2⌋ ⌊p.y * 2⌋)
        FILTER_LINEAR ADDRESS_CLAMP_TO_ZERO ⟨2, 2⟩ ⟨0, 0, 1, 1⟩ 1
        ⟨((1 : ℤ) : ℚ)/2, ((1 : ℤ) : ℚ)/2⟩ =
      some (Vec4.scale (1/4)
        ((((fun (a b : ℤ) => (⟨(a : ℚ), (b : ℚ), 0, 1⟩ : Vec4)) (1 - 1) (1 - 1)).add
            ((fun (a b : ℤ) => (⟨(a : ℚ), (b : ℚ), 0, 1⟩ : Vec4)) 1 (1 - 1))).add
          (((fun (a b : ℤ) => (⟨(a : ℚ), (b : ℚ), 0, 1⟩ : Vec4)) (1 - 1) 1).add
            ((fun (a b : ℤ) => (⟨(a : ℚ), (b : ℚ), 0, 1⟩ : Vec4)) 1 1)))) :=
  ⟨by norm_num [texelSize], by norm_num [texelSize],
   by norm_num [texelSize, adjustTexel, fract],
   by norm_num [texelSize, adjustTexel, fract],
   linear_midpoint_averages_four_texels (fun (a b : ℤ) => ⟨(a : ℚ), (b : ℚ), 0, 1⟩) 2 2 1 1
     ⟨0, 0, 1, 1⟩ 1 (by norm_num) (by norm_num)
     (by norm_num [texelSize]) (by norm_num [texelSize])
     (by norm_num [texelSize, adjustTexel, fract])
     (by norm_num [texelSize, adjustTexel, fract])⟩

/-- C7: `checkGLSL` aborts program creation if and only if some
identifier-shaped token of the source — taken line by line, each line
truncated at its first `//` — belongs to the fixed reserved-keyword set;
in particular a keyword occurring only inside a stripped line comment is
never tokenized and cannot cause rejection. -/
theorem checkGLSL_rejects_iff_reserved_token (src : List Char) :
    checkGLSL src = true ↔
      ∃ l ∈ splitLines src, ∃ token ∈ tokenize (stripLineComment l),
        token ∈ glslReservedKeywords := by
  simp [checkGLSL, List.any_eq_true]
